import Mathlib

/-!
Shallow embedding of the shopify-demo order-forwarding core:
the Shopify domain model (src/domain/order.py), the Everstox DTO model
(src/domain/everstox_order.py), the Shopify-to-Everstox mapper
(src/application/order_mapper.py), and the paginating, throttling,
tag-filtering order fetcher (src/infrastructure/order_repository.py).

Monetary amounts, tax rates and throttle figures are Python floats parsed
from decimal strings; they are modelled as rationals so the arithmetic
identities of the mapper are exact.  Datetimes and opaque ids are carried
as strings.  Optional fields become `Option`, Python truthiness of
optional strings and lists is modelled explicitly where the source relies
on it.
-/

namespace ShopifyDemo

/-- Tax line of an order or shipping line (src/domain/order.py, OrderTaxLine). -/
structure OrderTaxLine where
  rate : ℚ
  amount : ℚ
  currency : String
deriving DecidableEq, Repr

/-- Shipping line of an order (src/domain/order.py, OrderShippingLine). -/
structure OrderShippingLine where
  title : Option String := none
  code : Option String := none
  original_price : ℚ
  discounted_price : ℚ
  currency : String
  tax_lines : List OrderTaxLine := []
deriving DecidableEq, Repr

/-- Free-form key/value pair: an element of the line item's
Python `custom_attributes: list[dict]`, accessed by the mapper at the
keys "key" and "value". -/
structure CustomAttr where
  key : String
  value : String
deriving DecidableEq, Repr

/-- Line item of an order (src/domain/order.py, OrderLineItem). -/
structure OrderLineItem where
  id : String
  title : String
  quantity : Int
  sku : String
  price : ℚ
  currency : String
  tax_lines : List OrderTaxLine := []
  discount_total : ℚ := 0
  custom_attributes : List CustomAttr := []
deriving DecidableEq, Repr

/-- Shipping address of an order (src/domain/order.py, OrderShippingAddress). -/
structure OrderShippingAddress where
  first_name : String
  last_name : String
  country_code : String
  city : String
  zip : String
  address_1 : String
  address_2 : Option String := none
  phone : Option String := none
  province : Option String := none
deriving DecidableEq, Repr

/-- Billing address of an order (src/domain/order.py, OrderBillingAddress). -/
structure OrderBillingAddress where
  first_name : String
  last_name : String
  country_code : String
  city : String
  zip : String
  address_1 : String
  address_2 : Option String := none
  company : Option String := none
  phone : Option String := none
  country : Option String := none
  province : Option String := none
  province_code : Option String := none
deriving DecidableEq, Repr

/-- Shopify order domain object (src/domain/order.py, Order). -/
structure Order where
  id : String
  name : String
  created_at : String
  financial_status : String
  fulfillment_status : Option String
  total_price : String
  currency : String
  tags : List String := []
  email : Option String := none
  shipping_address : Option OrderShippingAddress := none
  billing_address : Option OrderBillingAddress := none
  shipping_line : Option OrderShippingLine := none
  line_items : List OrderLineItem := []
deriving DecidableEq, Repr

/-- Outbound shipping address DTO (src/domain/everstox_order.py, ShippingAddress). -/
structure ShippingAddress where
  first_name : String
  last_name : String
  country_code : String
  city : String
  zip : String
  address_1 : String
  address_2 : Option String := none
  company : Option String := none
  phone : Option String := none
  title : Option String := none
  country : Option String := none
  province_code : Option String := none
  province : Option String := none
  longitude : Option ℚ := none
  latitude : Option ℚ := none
  contact_person : Option String := none
  department : Option String := none
  sub_department : Option String := none
  address_type : Option String := none
deriving DecidableEq, Repr

/-- Outbound billing address DTO (src/domain/everstox_order.py, BillingAddress). -/
structure BillingAddress where
  first_name : String
  last_name : String
  country_code : String
  city : String
  zip : String
  address_1 : String
  address_2 : Option String := none
  company : Option String := none
  phone : Option String := none
  title : Option String := none
  country : Option String := none
  province_code : Option String := none
  province : Option String := none
  longitude : Option ℚ := none
  latitude : Option ℚ := none
  VAT_number : Option String := none
  contact_person : Option String := none
  department : Option String := none
  sub_department : Option String := none
  address_type : Option String := none
deriving DecidableEq, Repr

/-- Outbound shipping price breakdown (src/domain/everstox_order.py, ShippingPrice). -/
structure ShippingPrice where
  currency : String
  price_net_after_discount : ℚ
  tax_amount : ℚ
  tax_rate : ℚ
  price : ℚ
  tax : ℚ
  discount : ℚ
  discount_gross : ℚ
deriving DecidableEq, Repr

/-- Outbound custom attribute (src/domain/everstox_order.py, CustomAttribute). -/
structure CustomAttribute where
  attribute_key : String
  attribute_value : String
deriving DecidableEq, Repr

/-- Outbound shipment option (src/domain/everstox_order.py, ShipmentOption). -/
structure ShipmentOption where
  id : Option String := none
  name : Option String := none
deriving DecidableEq, Repr

/-- Outbound per-item price breakdown (src/domain/everstox_order.py, PriceSet). -/
structure PriceSet where
  quantity : Int
  currency : String
  price_net_after_discount : ℚ
  tax_amount : ℚ
  tax_rate : ℚ
  price : ℚ
  tax : ℚ
  discount : ℚ
  discount_gross : ℚ
deriving DecidableEq, Repr

/-- Outbound product reference (src/domain/everstox_order.py, Product). -/
structure Product where
  sku : String
deriving DecidableEq, Repr

/-- Outbound order item (src/domain/everstox_order.py, OrderItem). -/
structure OrderItem where
  quantity : Int
  product : Product
  shipment_options : List ShipmentOption := []
  price_set : List PriceSet := []
  custom_attributes : List CustomAttribute := []
  requested_batch : Option String := none
  requested_batch_expiration_date : Option String := none
  picking_hint : Option String := none
  packing_hint : Option String := none
deriving DecidableEq, Repr

/-- Outbound attachment (src/domain/everstox_order.py, Attachment). -/
structure Attachment where
  attachment_type : String
  url : Option String := none
  content : Option String := none
  file_name : Option String := none
deriving DecidableEq, Repr

/-- Top-level outbound DTO (src/domain/everstox_order.py, EverstoxOrder). -/
structure EverstoxOrder where
  shop_instance_id : String
  order_number : String
  order_date : String
  customer_email : String
  financial_status : String
  shipping_address : ShippingAddress
  billing_address : BillingAddress
  shipping_price : ShippingPrice
  order_items : List OrderItem
  payment_method_id : Option String := none
  payment_method_name : Option String := none
  requested_warehouse_id : Option String := none
  requested_warehouse_name : Option String := none
  requested_delivery_date : Option String := none
  order_priority : Option Int := none
  picking_date : Option String := none
  print_return_label : Bool := false
  picking_hint : Option String := none
  packing_hint : Option String := none
  order_type : Option String := none
  custom_attributes : List CustomAttribute := []
  attachments : List Attachment := []
deriving DecidableEq, Repr

/-- Placeholder shop instance id (src/application/order_mapper.py, _SHOP_INSTANCE_ID). -/
def SHOP_INSTANCE_ID : String := "00000000-0000-0000-0000-000000000000"

/-- Sum of the amounts of a list of tax lines, as computed by the mapper's
Python generator expressions of the form sum of t.amount for t in tax_lines. -/
def taxAmountSum (ts : List OrderTaxLine) : ℚ :=
  (ts.map OrderTaxLine.amount).sum

/-- Rate of the first tax line, or 0 when the list is empty: the mapper's
Python idiom tax_lines[0].rate if tax_lines else 0.0. -/
def firstTaxRate (ts : List OrderTaxLine) : ℚ :=
  match ts with
  | [] => 0
  | t :: _ => t.rate

/-- Python truthiness of an optional string, as in the source's
expression order.email or fallback: None and the empty string both
fall through to the fallback. -/
def pyStrOr (a : Option String) (b : String) : String :=
  match a with
  | none => b
  | some s => if s = "" then b else s

/-- Field-for-field shipping address mapping
(src/application/order_mapper.py, _map_shipping_address). -/
def map_shipping_address (addr : OrderShippingAddress) : ShippingAddress :=
  { first_name := addr.first_name
    last_name := addr.last_name
    country_code := addr.country_code
    city := addr.city
    zip := addr.zip
    address_1 := addr.address_1
    address_2 := addr.address_2
    phone := addr.phone
    province := addr.province }

/-- Field-for-field billing address mapping
(src/application/order_mapper.py, _map_billing_address). -/
def map_billing_address (addr : OrderBillingAddress) : BillingAddress :=
  { first_name := addr.first_name
    last_name := addr.last_name
    country_code := addr.country_code
    city := addr.city
    zip := addr.zip
    address_1 := addr.address_1
    address_2 := addr.address_2
    company := addr.company
    phone := addr.phone
    country := addr.country
    province := addr.province
    province_code := addr.province_code }

/-- Fallback shipping address synthesized when Shopify returned null
(src/application/order_mapper.py, map_order_to_everstox, lines 95-102). -/
def fallbackShippingAddress : ShippingAddress :=
  { first_name := "TODO"
    last_name := "TODO"
    country_code := "DE"
    city := "TODO"
    zip := "00000"
    address_1 := "TODO" }

/-- Fallback billing address synthesized when Shopify returned null
(src/application/order_mapper.py, map_order_to_everstox, lines 107-114). -/
def fallbackBillingAddress : BillingAddress :=
  { first_name := "TODO"
    last_name := "TODO"
    country_code := "DE"
    city := "TODO"
    zip := "00000"
    address_1 := "TODO" }

/-- Body of the list comprehension in _map_order_items
(src/application/order_mapper.py, lines 60-86): one outbound item per
order line item. -/
def map_one_order_item (shipment_options : List ShipmentOption)
    (item : OrderLineItem) : OrderItem :=
  { quantity := item.quantity
    product := { sku := item.sku }
    shipment_options := shipment_options
    price_set :=
      [{ quantity := item.quantity
         currency := item.currency
         price := item.price
         price_net_after_discount := item.price - item.discount_total
         tax_amount := taxAmountSum item.tax_lines
         tax_rate := firstTaxRate item.tax_lines
         tax := taxAmountSum item.tax_lines
         discount := item.discount_total
         discount_gross := item.discount_total }]
    custom_attributes :=
      item.custom_attributes.map fun ca =>
        { attribute_key := ca.key, attribute_value := ca.value } }

/-- Mapping of all order line items
(src/application/order_mapper.py, _map_order_items). -/
def map_order_items (order_line_items : List OrderLineItem)
    (shipment_options : List ShipmentOption) : List OrderItem :=
  order_line_items.map (map_one_order_item shipment_options)

/-- The Shopify-to-Everstox order mapper
(src/application/order_mapper.py, map_order_to_everstox). -/
def map_order_to_everstox (order : Order) : EverstoxOrder :=
  let shipping_address :=
    match order.shipping_address with
    | some addr => map_shipping_address addr
    | none => fallbackShippingAddress
  let billing_address :=
    match order.billing_address with
    | some addr => map_billing_address addr
    | none => fallbackBillingAddress
  let sl := order.shipping_line
  let shipment_options :=
    match sl with
    | some s => [{ name := s.title : ShipmentOption }]
    | none => []
  let shipping_price : ShippingPrice :=
    { currency := match sl with | some s => s.currency | none => order.currency
      price := match sl with | some s => s.original_price | none => 0
      price_net_after_discount :=
        match sl with
        | some s => s.discounted_price - taxAmountSum s.tax_lines
        | none => 0
      tax_amount := match sl with | some s => taxAmountSum s.tax_lines | none => 0
      tax_rate := match sl with | some s => firstTaxRate s.tax_lines | none => 0
      tax := match sl with | some s => taxAmountSum s.tax_lines | none => 0
      discount :=
        match sl with
        | some s => s.original_price - s.discounted_price
        | none => 0
      discount_gross :=
        match sl with
        | some s => s.original_price - s.discounted_price
        | none => 0 }
  let line_items :=
    match order.line_items with
    | [] => [{ quantity := 1, product := { sku := "TODO" } : OrderItem }]
    | items => map_order_items items shipment_options
  { shop_instance_id := SHOP_INSTANCE_ID
    order_number := order.name
    order_date := order.created_at
    customer_email := pyStrOr order.email "unknown@example.com"
    financial_status := order.financial_status
    shipping_address := shipping_address
    billing_address := billing_address
    shipping_price := shipping_price
    order_items := line_items
    custom_attributes :=
      [{ attribute_key := "shopify_order_id", attribute_value := order.id }] }

/-- Raw GraphQL tax line subtree as consumed by OrderRepository._map:
rate plus priceSet.shopMoney amount and currencyCode.  The Python
float(...) parses of the decimal strings are modelled by carrying the
numeric values as rationals. -/
structure RawTaxLine where
  rate : ℚ
  amount : ℚ
  currency : String
deriving DecidableEq, Repr

/-- Raw GraphQL line item node (lineItems.edges[].node) as consumed by
OrderRepository._map: id, title, quantity, unfulfilledQuantity, sku,
originalUnitPriceSet.shopMoney, taxLines, discountAllocations
(each reduced to its allocatedAmountSet.shopMoney.amount) and
customAttributes. -/
structure RawLineItem where
  id : String
  title : String
  quantity : Int
  unfulfilledQuantity : Int
  sku : String
  price : ℚ
  currency : String
  taxLines : List RawTaxLine := []
  discountAllocations : List ℚ := []
  customAttributes : List CustomAttr := []
deriving DecidableEq, Repr

/-- Raw GraphQL shippingAddress subtree as consumed by
OrderRepository._map; fields read with raw.get(...) are optional. -/
structure RawShippingAddress where
  firstName : String
  lastName : String
  countryCode : String
  city : String
  zip : String
  address1 : String
  address2 : Option String := none
  phone : Option String := none
  province : Option String := none
deriving DecidableEq, Repr

/-- Raw GraphQL billingAddress subtree as consumed by
OrderRepository._map; fields read with raw.get(...) are optional. -/
structure RawBillingAddress where
  firstName : String
  lastName : String
  countryCode : String
  city : String
  zip : String
  address1 : String
  address2 : Option String := none
  company : Option String := none
  phone : Option String := none
  country : Option String := none
  province : Option String := none
  provinceCode : Option String := none
deriving DecidableEq, Repr

/-- Raw GraphQL shippingLine subtree as consumed by OrderRepository._map:
title, code, originalPriceSet.shopMoney, discountedPriceSet.shopMoney
and taxLines.  The currency the mapping keeps is the one of the
original price set. -/
structure RawShippingLine where
  title : Option String := none
  code : Option String := none
  originalPrice : ℚ
  discountedPrice : ℚ
  originalCurrency : String
  taxLines : List RawTaxLine := []
deriving DecidableEq, Repr

/-- Raw GraphQL order node as consumed by OrderRepository._map and the
tag filter of fetch_orders. totalAmount is kept as the decimal string the
API returned because _map stores money["amount"] unconverted into
Order.total_price. -/
structure RawNode where
  id : String
  name : String
  createdAt : String
  displayFinancialStatus : String
  displayFulfillmentStatus : Option String := none
  tags : List String := []
  email : Option String := none
  totalAmount : String
  totalCurrency : String
  shippingAddress : Option RawShippingAddress := none
  billingAddress : Option RawBillingAddress := none
  shippingLine : Option RawShippingLine := none
  lineItems : List RawLineItem := []
deriving DecidableEq, Repr

/-- Raw tax line to domain tax line, the comprehension shared by the line
item and shipping line branches of OrderRepository._map. -/
def mapRawTaxLine (t : RawTaxLine) : OrderTaxLine :=
  { rate := t.rate, amount := t.amount, currency := t.currency }

/-- Raw line item node to domain OrderLineItem, the comprehension body of
OrderRepository._map lines 245-269: quantity is set to the node's
unfulfilledQuantity and the discount total sums all discount
allocations. -/
def mapRawLineItem (it : RawLineItem) : OrderLineItem :=
  { id := it.id
    title := it.title
    quantity := it.unfulfilledQuantity
    sku := it.sku
    price := it.price
    currency := it.currency
    tax_lines := it.taxLines.map mapRawTaxLine
    discount_total := it.discountAllocations.sum
    custom_attributes := it.customAttributes }

/-- OrderRepository._map (src/infrastructure/order_repository.py,
lines 208-308): raw GraphQL node to Order domain object.  Line items are
kept only when unfulfilledQuantity > 0; tags are stored exactly as they
appear on the node. -/
def OrderRepository_map (node : RawNode) : Order :=
  let shipping_address :=
    node.shippingAddress.map fun raw =>
      ({ first_name := raw.firstName
         last_name := raw.lastName
         country_code := raw.countryCode
         city := raw.city
         zip := raw.zip
         address_1 := raw.address1
         address_2 := raw.address2
         phone := raw.phone
         province := raw.province } : OrderShippingAddress)
  let billing_address :=
    node.billingAddress.map fun raw =>
      ({ first_name := raw.firstName
         last_name := raw.lastName
         country_code := raw.countryCode
         city := raw.city
         zip := raw.zip
         address_1 := raw.address1
         address_2 := raw.address2
         company := raw.company
         phone := raw.phone
         country := raw.country
         province := raw.province
         province_code := raw.provinceCode } : OrderBillingAddress)
  let line_items :=
    (node.lineItems.filter fun it => it.unfulfilledQuantity > 0).map mapRawLineItem
  let shipping_line :=
    node.shippingLine.map fun raw_sl =>
      ({ title := raw_sl.title
         code := raw_sl.code
         original_price := raw_sl.originalPrice
         discounted_price := raw_sl.discountedPrice
         currency := raw_sl.originalCurrency
         tax_lines := raw_sl.taxLines.map mapRawTaxLine } : OrderShippingLine)
  { id := node.id
    name := node.name
    created_at := node.createdAt
    financial_status := node.displayFinancialStatus
    fulfillment_status := node.displayFulfillmentStatus
    total_price := node.totalAmount
    currency := node.totalCurrency
    tags := node.tags
    email := node.email
    shipping_address := shipping_address
    billing_address := billing_address
    shipping_line := shipping_line
    line_items := line_items }

/-- Page size constant (OrderRepository.PAGE_SIZE). -/
def PAGE_SIZE : Int := 50

/-- Cost safety buffer constant (OrderRepository.COST_BUFFER). -/
def COST_BUFFER : ℚ := 50

/-- One GraphQL page response as fetch_orders reads it: pageInfo
(hasNextPage, endCursor), the order nodes of the edges, and the cost
extension values after the source's .get defaults are applied
(actualQueryCost default 0, currentlyAvailable default 1000,
restoreRate default 50). -/
structure PageResponse where
  hasNextPage : Bool
  endCursor : Option String := none
  nodes : List RawNode := []
  actualQueryCost : ℚ := 0
  currentlyAvailable : ℚ := 1000
  restoreRate : ℚ := 50
deriving DecidableEq, Repr

/-- Observable step of a fetch_orders run: a page request carrying the
after cursor passed in the GraphQL variables, or a time.sleep of the
given number of seconds. -/
inductive FetchStep where
  | request (after : Option String)
  | sleep (seconds : ℚ)
deriving DecidableEq, Repr

/-- Reactive throttle of fetch_orders (order_repository.py lines 166-173):
time.sleep is called exactly when currently_available is below
actual_cost + COST_BUFFER, for (actual_cost + COST_BUFFER -
currently_available) / restore_rate seconds; otherwise no sleep happens. -/
def throttleSleep (resp : PageResponse) : Option ℚ :=
  if resp.currentlyAvailable < resp.actualQueryCost + COST_BUFFER then
    some ((resp.actualQueryCost + COST_BUFFER - resp.currentlyAvailable) / resp.restoreRate)
  else
    none

/-- Python str.lower as used on tags: every character lowercased.
Defined on the character list so it evaluates by kernel reduction;
extensionally it is String.toLower. -/
def pyLower (s : String) : String := ⟨s.data.map Char.toLower⟩

/-- Tag filter applied to each edge node (order_repository.py lines
177-197): tags are lowercased, the blacklist always wins, then a
non-empty whitelist requires at least one matching tag. -/
def keepOrder (blacklist whitelist : List String) (node : RawNode) : Bool :=
  let order_tags := node.tags.map pyLower
  if order_tags.any fun tag => blacklist.contains tag then
    false
  else if ¬ whitelist.isEmpty ∧ ¬ order_tags.any (fun tag => whitelist.contains tag) then
    false
  else
    true

/-- Per-page body of the edges loop of fetch_orders: surviving nodes are
mapped with OrderRepository._map and appended in page order. -/
def processPage (blacklist whitelist : List String) (nodes : List RawNode) : List Order :=
  (nodes.filter (keepOrder blacklist whitelist)).map OrderRepository_map

/-- Trace contribution of the throttle for one page response: one sleep
step when throttleSleep fires, nothing otherwise. -/
def sleepSteps (resp : PageResponse) : List FetchStep :=
  match throttleSleep resp with
  | some s => [FetchStep.sleep s]
  | none => []

/-- The pagination loop of fetch_orders (order_repository.py lines
138-206) over a fixed sequence of provider responses, consumed in call
order like the mocked client of the tests.  Returns the interleaved
request/sleep trace and the accumulated orders; none when the loop would
request another page but the response sequence is exhausted. -/
def fetch_orders_go (blacklist whitelist : List String) (cursor : Option String) :
    List PageResponse → Option (List FetchStep × List Order)
  | [] => none
  | resp :: rest =>
    let pageOrders := processPage blacklist whitelist resp.nodes
    if resp.hasNextPage then
      match fetch_orders_go blacklist whitelist resp.endCursor rest with
      | none => none
      | some (steps, orders) =>
        some (FetchStep.request cursor :: sleepSteps resp ++ steps, pageOrders ++ orders)
    else
      some (FetchStep.request cursor :: sleepSteps resp, pageOrders)

/-- OrderRepository.fetch_orders on a response sequence: the loop starts
with a null cursor. -/
def fetch_orders (blacklist whitelist : List String) (pages : List PageResponse) :
    Option (List FetchStep × List Order) :=
  fetch_orders_go blacklist whitelist none pages

/-- Cursors of the page requests of a trace, in order. -/
def requestCursors (steps : List FetchStep) : List (Option String) :=
  steps.filterMap fun step =>
    match step with
    | FetchStep.request after => some after
    | FetchStep.sleep _ => none

/-- Concrete shipping-line tax line of the spec's example: rate 0.19,
amount 1.52. -/
def exTaxLine : OrderTaxLine := { rate := 0.19, amount := 1.52, currency := "EUR" }

/-- Concrete shipping line of the spec's example: original price 10.00,
discounted price 8.00, one tax line. -/
def exShippingLine : OrderShippingLine :=
  { title := some "Express"
    original_price := 10
    discounted_price := 8
    currency := "EUR"
    tax_lines := [exTaxLine] }

/-- Minimal concrete order, shaped like the test helper _make_order of
tests/test_orders.py; no email, no addresses, no shipping line, no
line items. -/
def exOrderBase : Order :=
  { id := "gid://shopify/Order/1"
    name := "#1001"
    created_at := "2025-02-01T10:00:00Z"
    financial_status := "PAID"
    fulfillment_status := some "UNFULFILLED"
    total_price := "99.99"
    currency := "EUR" }

/-- The concrete order of the spec's shipping price example. -/
def exOrderShip : Order :=
  { exOrderBase with
    email := some "customer@example.com"
    shipping_line := some exShippingLine }

/-- Concrete order whose email field is present but empty. -/
def exOrderEmptyEmail : Order := { exOrderBase with email := some "" }

/-- Page response of the spec's throttle example with a low budget:
cost 10, available 50, refill 50. -/
def pageLowBudget : PageResponse :=
  { hasNextPage := false
    actualQueryCost := 10
    currentlyAvailable := 50
    restoreRate := 50 }

/-- Page response of the spec's throttle example with a high budget:
cost 10, available 1000, refill 50. -/
def pageHighBudget : PageResponse :=
  { hasNextPage := false
    actualQueryCost := 10
    currentlyAvailable := 1000
    restoreRate := 50 }

/-- Single empty final page: zero edges, hasNextPage false. -/
def pageEmpty : PageResponse := { hasNextPage := false }

/-- Raw node with a deny-listed and an allow-listed tag. -/
def nodeTagged : RawNode :=
  { id := "gid://shopify/Order/9"
    name := "#1009"
    createdAt := "2025-02-01T10:00:00Z"
    displayFinancialStatus := "PAID"
    totalAmount := "10.00"
    totalCurrency := "EUR"
    tags := ["VIP", "Sale"] }

/-- Raw node with the single mixed-case tag VIP. -/
def nodeTagVIP : RawNode := { nodeTagged with tags := ["VIP"] }

/-- Raw node with the single lowercase tag vip. -/
def nodeTagvip : RawNode := { nodeTagged with tags := ["vip"] }

/-- Single final page whose only node carries the tag VIP. -/
def pageTagVIP : PageResponse := { hasNextPage := false, nodes := [nodeTagVIP] }

/-- Raw line item with unfulfilled quantity 2 out of an original
quantity of 3. -/
def rawItemOpen : RawLineItem :=
  { id := "gid://shopify/LineItem/1"
    title := "Widget"
    quantity := 3
    unfulfilledQuantity := 2
    sku := "W-01"
    price := 10
    currency := "EUR" }

/-- Raw line item that is fully fulfilled: unfulfilled quantity 0. -/
def rawItemDone : RawLineItem :=
  { id := "gid://shopify/LineItem/2"
    title := "Gadget"
    quantity := 1
    unfulfilledQuantity := 0
    sku := "G-01"
    price := 5
    currency := "EUR" }

/-- Raw node carrying one open and one fully fulfilled line item. -/
def nodeItems : RawNode := { nodeTagged with tags := [], lineItems := [rawItemOpen, rawItemDone] }

/-- Single final page whose only node is nodeItems. -/
def pageItems : PageResponse := { hasNextPage := false, nodes := [nodeItems] }

/-- Every trace of a completed fetch_orders_go run starts with the page
request carrying the cursor the loop was entered with. -/
theorem fetch_go_head (bl wl : List String) (cursor : Option String)
    (pages : List PageResponse) (steps : List FetchStep) (orders : List Order)
    (h : fetch_orders_go bl wl cursor pages = some (steps, orders)) :
    ∃ rest, steps = FetchStep.request cursor :: rest := by
  cases pages with
  | nil => simp [fetch_orders_go] at h
  | cons resp rest =>
    unfold fetch_orders_go at h
    by_cases hn : resp.hasNextPage
    · simp only [hn, if_true] at h
      cases hrec : fetch_orders_go bl wl resp.endCursor rest with
      | none => rw [hrec] at h; simp at h
      | some out =>
        rw [hrec] at h
        cases out with
        | mk s o =>
          simp at h
          exact ⟨_, h.1.symm⟩
    · simp only [hn, if_false] at h
      simp at h
      exact ⟨_, h.1.symm⟩

/-- C1 counterexample: the claim says the output shipping price equals the
shipping line's discounted price; on the spec's own example (original
10.00, discounted 8.00, one tax line of rate 0.19 and amount 1.52) the
mapper sets price to the original price 10.00, not 8.00. -/
theorem shipping_price_discounted_claim_cex :
    exOrderShip.shipping_line = some exShippingLine ∧
    exShippingLine.discounted_price = 8 ∧
    (map_order_to_everstox exOrderShip).shipping_price.price = 10 ∧
    (map_order_to_everstox exOrderShip).shipping_price.price ≠
      exShippingLine.discounted_price := by
  exact ⟨rfl, rfl, rfl, by decide⟩

/-- C1 (amended): for every Order with a shipping line, the shipping price
breakdown has price equal to the shipping line's ORIGINAL price (not the
discounted price), tax amount equal to the sum of the tax line amounts,
tax rate equal to the first tax line's rate (0 when there are none),
discount and discount gross equal to original minus discounted price, and
net-after-discount equal to discounted price minus the tax amount. -/
theorem shipping_price_breakdown (o : Order) (sl : OrderShippingLine)
    (h : o.shipping_line = some sl) :
    (map_order_to_everstox o).shipping_price.price = sl.original_price ∧
    (map_order_to_everstox o).shipping_price.tax_amount = taxAmountSum sl.tax_lines ∧
    (map_order_to_everstox o).shipping_price.tax = taxAmountSum sl.tax_lines ∧
    (map_order_to_everstox o).shipping_price.tax_rate = firstTaxRate sl.tax_lines ∧
    (map_order_to_everstox o).shipping_price.discount =
      sl.original_price - sl.discounted_price ∧
    (map_order_to_everstox o).shipping_price.discount_gross =
      sl.original_price - sl.discounted_price ∧
    (map_order_to_everstox o).shipping_price.price_net_after_discount =
      sl.discounted_price - taxAmountSum sl.tax_lines := by
  simp [map_order_to_everstox, h]

/-- C1 witness: on the spec's example order the amended breakdown
evaluates to price 10.00, discount 2.00, tax amount 1.52, tax rate 0.19
and net-after-discount 6.48. -/
theorem shipping_price_breakdown_witness :
    (map_order_to_everstox exOrderShip).shipping_price.price = 10 ∧
    (map_order_to_everstox exOrderShip).shipping_price.discount = 2 ∧
    (map_order_to_everstox exOrderShip).shipping_price.tax_amount = 1.52 ∧
    (map_order_to_everstox exOrderShip).shipping_price.tax_rate = 0.19 ∧
    (map_order_to_everstox exOrderShip).shipping_price.price_net_after_discount = 6.48 := by
  obtain ⟨h1, h2, h3, h4, h5, h6, h7⟩ :=
    shipping_price_breakdown exOrderShip exShippingLine rfl
  refine ⟨h1.trans rfl, h5.trans (by norm_num [exShippingLine]),
    h2.trans (by norm_num [exShippingLine, exTaxLine, taxAmountSum]),
    h4.trans (by norm_num [exShippingLine, exTaxLine, firstTaxRate]),
    h7.trans (by norm_num [exShippingLine, exTaxLine, taxAmountSum])⟩

/-- C2: during fetch_orders a sleep happens for a page response exactly
when the reported remaining budget is below the last query's cost plus
the safety buffer; its duration is (cost + buffer - remaining) divided by
the refill rate; and in the trace the sleep sits between the page's own
request and the next page's request. -/
theorem throttle_sleep_spec :
    (∀ resp : PageResponse,
      (throttleSleep resp).isSome ↔
        resp.currentlyAvailable < resp.actualQueryCost + COST_BUFFER) ∧
    (∀ (resp : PageResponse) (d : ℚ), throttleSleep resp = some d →
      d = (resp.actualQueryCost + COST_BUFFER - resp.currentlyAvailable) /
        resp.restoreRate) ∧
    (∀ (bl wl : List String) (cursor : Option String) (resp : PageResponse)
        (rest : List PageResponse) (steps : List FetchStep) (orders : List Order),
      resp.hasNextPage = true →
      fetch_orders_go bl wl cursor (resp :: rest) = some (steps, orders) →
      ∃ more : List FetchStep,
        steps = FetchStep.request cursor ::
          (sleepSteps resp ++ (FetchStep.request resp.endCursor :: more))) := by
  refine ⟨?_, ?_, ?_⟩
  · intro resp
    unfold throttleSleep
    split_ifs with hc <;> simp [hc]
  · intro resp d h
    unfold throttleSleep at h
    split_ifs at h with hc
    · exact (Option.some_inj.mp h).symm
  · intro bl wl cursor resp rest steps orders hn h
    unfold fetch_orders_go at h
    simp only [hn, if_true] at h
    cases hrec : fetch_orders_go bl wl resp.endCursor rest with
    | none => rw [hrec] at h; simp at h
    | some out =>
      rw [hrec] at h
      cases out with
      | mk s o =>
        simp at h
        obtain ⟨hs, -⟩ := h
        obtain ⟨tail, htail⟩ := fetch_go_head bl wl resp.endCursor rest s o hrec
        exact ⟨tail, by rw [← hs, htail]⟩

/-- C2 witness: with remaining budget 50, cost 10, buffer 50 and refill
rate 50 the sleep is 0.2 seconds and equals the claimed formula; with
remaining budget 1000 and the same cost and buffer no sleep happens. -/
theorem throttle_sleep_spec_witness :
    throttleSleep pageLowBudget = some 0.2 ∧
    (0.2 : ℚ) = (pageLowBudget.actualQueryCost + COST_BUFFER -
      pageLowBudget.currentlyAvailable) / pageLowBudget.restoreRate ∧
    throttleSleep pageHighBudget = none := by
  have hsome : throttleSleep pageLowBudget = some 0.2 := by
    norm_num [throttleSleep, pageLowBudget, COST_BUFFER]
  refine ⟨hsome, throttle_sleep_spec.2.1 pageLowBudget 0.2 hsome, ?_⟩
  norm_num [throttleSleep, pageHighBudget, COST_BUFFER]

/-- Sleep steps contribute no request cursors to a trace. -/
theorem requestCursors_sleepSteps (resp : PageResponse) :
    requestCursors (sleepSteps resp) = [] := by
  unfold sleepSteps
  cases throttleSleep resp <;> simp [requestCursors]

/-- requestCursors distributes over trace concatenation. -/
theorem requestCursors_append (a b : List FetchStep) :
    requestCursors (a ++ b) = requestCursors a ++ requestCursors b := by
  simp [requestCursors]

/-- Requests of a trace beginning with a page request. -/
theorem requestCursors_request_cons (c : Option String) (l : List FetchStep) :
    requestCursors (FetchStep.request c :: l) = c :: requestCursors l := by
  simp [requestCursors]

/-- Pagination chain lemma: on a response sequence whose pages all claim a
next page except the last one, the loop completes, the returned orders
are the concatenation of every page's surviving orders in page order, and
the issued requests carry the entry cursor followed by each non-final
page's end cursor. -/
theorem fetch_go_chain (bl wl : List String) (cursor : Option String)
    (pages : List PageResponse)
    (hne : pages ≠ [])
    (hmid : ∀ p ∈ pages.dropLast, p.hasNextPage = true)
    (hlast : ∀ p ∈ pages.getLast?, p.hasNextPage = false) :
    ∃ steps : List FetchStep,
      fetch_orders_go bl wl cursor pages =
        some (steps, (pages.map fun p => processPage bl wl p.nodes).flatten) ∧
      requestCursors steps = cursor :: pages.dropLast.map PageResponse.endCursor := by
  induction pages generalizing cursor with
  | nil => exact absurd rfl hne
  | cons p rest ih =>
    cases rest with
    | nil =>
      have hp : p.hasNextPage = false := by
        have hm : p ∈ ([p] : List PageResponse).getLast? := by simp
        exact hlast p hm
      refine ⟨FetchStep.request cursor :: sleepSteps p, ?_, ?_⟩
      · simp [fetch_orders_go, hp]
      · rw [requestCursors_request_cons, requestCursors_sleepSteps p]
        simp [List.dropLast]
    | cons q tail =>
      have hp : p.hasNextPage = true := by
        refine hmid p ?_
        simp [List.dropLast]
      have hmid2 : ∀ x ∈ (q :: tail).dropLast, x.hasNextPage = true := by
        intro x hx
        refine hmid x ?_
        simp only [List.dropLast]
        exact List.mem_cons_of_mem p hx
      have hlast2 : ∀ x ∈ (q :: tail).getLast?, x.hasNextPage = false := by
        intro x hx
        refine hlast x ?_
        simpa [List.getLast?_cons_cons] using hx
      obtain ⟨steps2, hrec, hcur⟩ := ih p.endCursor (by simp) hmid2 hlast2
      refine ⟨FetchStep.request cursor :: (sleepSteps p ++ steps2), ?_, ?_⟩
      · simp only [fetch_orders_go, hp, if_true]
        simp only [fetch_orders_go] at hrec
        rw [hrec]
        simp
      · rw [requestCursors_request_cons, requestCursors_append,
          requestCursors_sleepSteps p, List.nil_append, hcur]
        simp [List.dropLast]

/-- C3: on N chained pages (every page but the last claims a next page)
fetch_orders completes, issues exactly N requests, the first with a null
cursor and each later one carrying the previous page's end cursor, and
returns the concatenation of every page's surviving orders in page
order. -/
theorem pagination_spec (bl wl : List String) (pages : List PageResponse)
    (hne : pages ≠ [])
    (hmid : ∀ p ∈ pages.dropLast, p.hasNextPage = true)
    (hlast : ∀ p ∈ pages.getLast?, p.hasNextPage = false) :
    (fetch_orders bl wl pages).isSome ∧
    ∀ (steps : List FetchStep) (orders : List Order),
      fetch_orders bl wl pages = some (steps, orders) →
      orders = (pages.map fun p => processPage bl wl p.nodes).flatten ∧
      requestCursors steps = none :: pages.dropLast.map PageResponse.endCursor ∧
      (requestCursors steps).length = pages.length := by
  obtain ⟨steps, hrun, hcur⟩ := fetch_go_chain bl wl none pages hne hmid hlast
  constructor
  · simp [fetch_orders, hrun]
  · intro steps2 orders2 h
    rw [fetch_orders, hrun] at h
    have hpair := Option.some_inj.mp h
    have hs : steps = steps2 := congrArg Prod.fst hpair
    have ho : (pages.map fun p => processPage bl wl p.nodes).flatten = orders2 :=
      congrArg Prod.snd hpair
    subst hs
    refine ⟨ho.symm, hcur, ?_⟩
    rw [hcur]
    have hpos : 0 < pages.length := List.length_pos.mpr hne
    simp [List.length_dropLast]
    omega

/-- C3 witness: a single page with zero edges and hasNextPage false yields
an empty order list after exactly one request carrying the null cursor. -/
theorem pagination_spec_witness :
    fetch_orders [] [] [pageEmpty] = some ([FetchStep.request none], []) ∧
    requestCursors [FetchStep.request none] = [none] ∧
    ([] : List Order) = (([pageEmpty].map fun p => processPage [] [] p.nodes)).flatten := by
  have hdc : fetch_orders [] [] [pageEmpty] = some ([FetchStep.request none], []) := by
    norm_num [fetch_orders, fetch_orders_go, sleepSteps, throttleSleep, processPage,
      pageEmpty, COST_BUFFER]
  have h := (pagination_spec [] [] [pageEmpty] (by simp)
      (by simp) (by intro p hp; simp [pageEmpty] at hp; subst hp; rfl)).2
    [FetchStep.request none] [] hdc
  exact ⟨hdc, by simpa [pageEmpty] using h.2.1, h.1⟩

/-- C4: with tags compared after lowercasing, a deny-list (blacklist)
match excludes the node unconditionally; otherwise a non-empty allow-list
(whitelist) keeps the node exactly when some tag matches it, and an empty
allow-list keeps every node that survived the deny-list; the per-page
order list keeps exactly the surviving nodes. -/
theorem tag_filter_spec (bl wl : List String) (node : RawNode) :
    ((node.tags.map pyLower).any (fun t => bl.contains t) = true →
      keepOrder bl wl node = false) ∧
    ((node.tags.map pyLower).any (fun t => bl.contains t) = false → wl ≠ [] →
      (keepOrder bl wl node = true ↔
        (node.tags.map pyLower).any (fun t => wl.contains t) = true)) ∧
    ((node.tags.map pyLower).any (fun t => bl.contains t) = false → wl = [] →
      keepOrder bl wl node = true) ∧
    (∀ nodes : List RawNode,
      processPage bl wl nodes = (nodes.filter (keepOrder bl wl)).map OrderRepository_map) := by
  refine ⟨?_, ?_, ?_, fun nodes => rfl⟩
  · intro hb
    simp only [keepOrder]
    rw [if_pos hb]
  · intro hb hw
    simp only [keepOrder]
    rw [if_neg (by rw [hb]; exact Bool.false_ne_true)]
    have hw2 : ¬ wl.isEmpty = true := by
      cases wl with
      | nil => exact absurd rfl hw
      | cons a as => simp
    by_cases ha : (node.tags.map pyLower).any (fun t => wl.contains t) = true
    · rw [if_neg (fun hcon => hcon.2 ha)]
      exact iff_of_true rfl ha
    · rw [if_pos ⟨hw2, ha⟩]
      exact iff_of_false Bool.false_ne_true ha
  · intro hb hw
    subst hw
    simp only [keepOrder]
    rw [if_neg (by rw [hb]; exact Bool.false_ne_true)]
    rw [if_neg (fun hcon => hcon.1 rfl)]

/-- C4 witness: a node tagged VIP and Sale is dropped when vip is
deny-listed even though sale is allow-listed. -/
theorem tag_filter_spec_witness :
    keepOrder ["vip"] ["sale"] nodeTagged = false ∧
    (nodeTagged.tags.map pyLower).any (fun t => List.contains ["sale"] t) = true := by
  exact ⟨(tag_filter_spec ["vip"] ["sale"] nodeTagged).1 (by decide), by decide⟩

/-- Every order a completed fetch_orders_go run returns is the image of
some raw node under OrderRepository._map. -/
theorem fetch_go_orders_are_mapped (bl wl : List String) (cursor : Option String)
    (pages : List PageResponse) (steps : List FetchStep) (orders : List Order)
    (h : fetch_orders_go bl wl cursor pages = some (steps, orders)) :
    ∀ o ∈ orders, ∃ node : RawNode, o = OrderRepository_map node := by
  induction pages generalizing cursor steps orders with
  | nil => simp [fetch_orders_go] at h
  | cons resp rest ih =>
    unfold fetch_orders_go at h
    by_cases hn : resp.hasNextPage
    · simp only [hn, if_true] at h
      cases hrec : fetch_orders_go bl wl resp.endCursor rest with
      | none => rw [hrec] at h; simp at h
      | some out =>
        rw [hrec] at h
        cases out with
        | mk s os =>
          simp at h
          obtain ⟨-, ho⟩ := h
          intro o hmem
          rw [← ho] at hmem
          rcases List.mem_append.mp hmem with hmem | hmem
          · have hmem2 : ∃ a, (a ∈ resp.nodes ∧ keepOrder bl wl a = true) ∧
                OrderRepository_map a = o := by
              simpa [processPage] using hmem
            obtain ⟨n, -, hn2⟩ := hmem2
            exact ⟨n, hn2.symm⟩
          · exact ih resp.endCursor s os hrec o hmem
    · simp only [hn, if_false] at h
      simp at h
      obtain ⟨-, ho⟩ := h
      intro o hmem
      rw [← ho] at hmem
      have hmem2 : ∃ a, (a ∈ resp.nodes ∧ keepOrder bl wl a = true) ∧
          OrderRepository_map a = o := by
        simpa [processPage] using hmem
      obtain ⟨n, -, hn2⟩ := hmem2
      exact ⟨n, hn2.symm⟩

/-- C5: the node-to-Order mapping keeps exactly the line items with
strictly positive unfulfilledQuantity, each mapped item's quantity is
that node's unfulfilledQuantity, every mapped line item has positive
quantity, and hence every Order a completed fetch_orders run returns has
only line items with quantity > 0. -/
theorem line_item_quantity_spec :
    (∀ node : RawNode, (OrderRepository_map node).line_items =
      (node.lineItems.filter fun it => it.unfulfilledQuantity > 0).map mapRawLineItem) ∧
    (∀ it : RawLineItem, (mapRawLineItem it).quantity = it.unfulfilledQuantity) ∧
    (∀ (node : RawNode), ∀ li ∈ (OrderRepository_map node).line_items,
      0 < li.quantity) ∧
    (∀ (bl wl : List String) (pages : List PageResponse)
        (steps : List FetchStep) (orders : List Order),
      fetch_orders bl wl pages = some (steps, orders) →
      ∀ o ∈ orders, ∀ li ∈ o.line_items, 0 < li.quantity) := by
  have hpos : ∀ (node : RawNode), ∀ li ∈ (OrderRepository_map node).line_items,
      0 < li.quantity := by
    intro node li hli
    have hli2 : li ∈ (node.lineItems.filter
        fun it => it.unfulfilledQuantity > 0).map mapRawLineItem := hli
    obtain ⟨raw, hraw, hmap⟩ := List.mem_map.mp hli2
    have hq : raw.unfulfilledQuantity > 0 :=
      of_decide_eq_true (List.mem_filter.mp hraw).2
    rw [← hmap]
    exact hq
  refine ⟨fun node => rfl, fun it => rfl, hpos, ?_⟩
  intro bl wl pages steps orders h o ho li hli
  obtain ⟨node, rfl⟩ :=
    fetch_go_orders_are_mapped bl wl none pages steps orders h o ho
  exact hpos node li hli

/-- C5 witness: fetching a single page whose node has one line item with
unfulfilled quantity 2 (of original quantity 3) and one fully fulfilled
item returns one order whose only line item has quantity 2 > 0. -/
theorem line_item_quantity_spec_witness :
    fetch_orders [] [] [pageItems] =
      some ([FetchStep.request none], [OrderRepository_map nodeItems]) ∧
    (OrderRepository_map nodeItems).line_items = [mapRawLineItem rawItemOpen] ∧
    (mapRawLineItem rawItemOpen).quantity = 2 ∧
    0 < (mapRawLineItem rawItemOpen).quantity := by
  have hdc : fetch_orders [] [] [pageItems] =
      some ([FetchStep.request none], [OrderRepository_map nodeItems]) := by
    norm_num [fetch_orders, fetch_orders_go, sleepSteps, throttleSleep, processPage,
      keepOrder, pageItems, COST_BUFFER]
  refine ⟨hdc, rfl, rfl, ?_⟩
  exact line_item_quantity_spec.2.2.2 [] [] [pageItems] [FetchStep.request none]
    [OrderRepository_map nodeItems] hdc (OrderRepository_map nodeItems)
    (List.mem_singleton_self _) (mapRawLineItem rawItemOpen)
    (List.mem_singleton_self _)

/-- C6: every mapped order item preserves quantity, SKU and key/value
custom attributes; its single price breakdown has net-after-discount
equal to unit price minus discount total, tax amount and tax equal to the
sum of the tax line amounts, tax rate equal to the first tax line's rate
(0 when there are none), and discount and discount gross both equal to
the discount total. -/
theorem item_price_breakdown_spec (items : List OrderLineItem)
    (opts : List ShipmentOption) (item : OrderLineItem) :
    map_order_items items opts = items.map (map_one_order_item opts) ∧
    (map_one_order_item opts item).quantity = item.quantity ∧
    (map_one_order_item opts item).product.sku = item.sku ∧
    (map_one_order_item opts item).custom_attributes =
      item.custom_attributes.map (fun ca =>
        { attribute_key := ca.key, attribute_value := ca.value }) ∧
    ∃ ps : PriceSet,
      (map_one_order_item opts item).price_set = [ps] ∧
      ps.quantity = item.quantity ∧
      ps.price = item.price ∧
      ps.price_net_after_discount = item.price - item.discount_total ∧
      ps.tax_amount = taxAmountSum item.tax_lines ∧
      ps.tax = taxAmountSum item.tax_lines ∧
      ps.tax_rate = firstTaxRate item.tax_lines ∧
      ps.discount = item.discount_total ∧
      ps.discount_gross = item.discount_total := by
  exact ⟨rfl, rfl, rfl, rfl, ⟨_, rfl, rfl, rfl, rfl, rfl, rfl, rfl, rfl, rfl⟩⟩

/-- C7: when the shipping (billing) address is absent the mapper emits the
placeholder address with sentinel TODO name, city and address values,
sentinel postal code 00000 and default country code DE; when it is
present the address is mapped field-for-field with no transformation.
The mapper is a total function, so it never raises. -/
theorem address_fallback_spec (o : Order) :
    (o.shipping_address = none →
      (map_order_to_everstox o).shipping_address = fallbackShippingAddress) ∧
    (∀ a, o.shipping_address = some a →
      (map_order_to_everstox o).shipping_address = map_shipping_address a) ∧
    (o.billing_address = none →
      (map_order_to_everstox o).billing_address = fallbackBillingAddress) ∧
    (∀ a, o.billing_address = some a →
      (map_order_to_everstox o).billing_address = map_billing_address a) ∧
    (fallbackShippingAddress.first_name = "TODO" ∧
      fallbackShippingAddress.last_name = "TODO" ∧
      fallbackShippingAddress.city = "TODO" ∧
      fallbackShippingAddress.address_1 = "TODO" ∧
      fallbackShippingAddress.zip = "00000" ∧
      fallbackShippingAddress.country_code = "DE") ∧
    (fallbackBillingAddress.first_name = "TODO" ∧
      fallbackBillingAddress.last_name = "TODO" ∧
      fallbackBillingAddress.city = "TODO" ∧
      fallbackBillingAddress.address_1 = "TODO" ∧
      fallbackBillingAddress.zip = "00000" ∧
      fallbackBillingAddress.country_code = "DE") ∧
    (∀ a : OrderShippingAddress, map_shipping_address a =
      { first_name := a.first_name, last_name := a.last_name,
        country_code := a.country_code, city := a.city, zip := a.zip,
        address_1 := a.address_1, address_2 := a.address_2,
        phone := a.phone, province := a.province }) ∧
    (∀ a : OrderBillingAddress, map_billing_address a =
      { first_name := a.first_name, last_name := a.last_name,
        country_code := a.country_code, city := a.city, zip := a.zip,
        address_1 := a.address_1, address_2 := a.address_2,
        company := a.company, phone := a.phone, country := a.country,
        province := a.province, province_code := a.province_code }) := by
  refine ⟨?_, ?_, ?_, ?_,
    ⟨rfl, rfl, rfl, rfl, rfl, rfl⟩, ⟨rfl, rfl, rfl, rfl, rfl, rfl⟩,
    fun a => rfl, fun a => rfl⟩
  · intro h
    simp [map_order_to_everstox, h]
  · intro a h
    simp [map_order_to_everstox, h]
  · intro h
    simp [map_order_to_everstox, h]
  · intro a h
    simp [map_order_to_everstox, h]

/-- C7 witness: mapping the concrete order without any address emits the
placeholder shipping and billing addresses. -/
theorem address_fallback_spec_witness :
    (map_order_to_everstox exOrderBase).shipping_address = fallbackShippingAddress ∧
    (map_order_to_everstox exOrderBase).billing_address = fallbackBillingAddress := by
  exact ⟨(address_fallback_spec exOrderBase).1 rfl,
    (address_fallback_spec exOrderBase).2.2.1 rfl⟩

/-- C8 counterexample: the claim says every tag on a fetched Order equals
its own lowercase form, but fetching a page whose node carries the tag
VIP returns an Order whose stored tag is VIP, which differs from its
lowercase form vip: the repository lowercases tags only for the filter
comparison and stores the raw tags. -/
theorem tags_lowercase_claim_cex :
    fetch_orders [] [] [pageTagVIP] =
      some ([FetchStep.request none], [OrderRepository_map nodeTagVIP]) ∧
    (OrderRepository_map nodeTagVIP).tags = ["VIP"] ∧
    pyLower "VIP" = "vip" ∧
    ("VIP" : String) ≠ pyLower "VIP" := by
  refine ⟨?_, rfl, by decide, by decide⟩
  norm_num [fetch_orders, fetch_orders_go, sleepSteps, throttleSleep, processPage,
    keepOrder, pageTagVIP, COST_BUFFER]

/-- C8 (amended): the Order keeps the raw node's tags unchanged (original
case); lowercasing is applied only to the filter comparison, so the
filter decision depends only on the lowercased tags. -/
theorem tags_stored_raw (bl wl : List String) (node node2 : RawNode)
    (h : node.tags.map pyLower = node2.tags.map pyLower) :
    (OrderRepository_map node).tags = node.tags ∧
    keepOrder bl wl node = keepOrder bl wl node2 := by
  refine ⟨rfl, ?_⟩
  simp only [keepOrder, h]

/-- C8 witness: the node tagged VIP keeps its raw tag on the Order and is
filtered exactly like the node tagged vip. -/
theorem tags_stored_raw_witness :
    (OrderRepository_map nodeTagVIP).tags = ["VIP"] ∧
    keepOrder ["vip"] [] nodeTagVIP = keepOrder ["vip"] [] nodeTagvip := by
  exact ⟨(tags_stored_raw ["vip"] [] nodeTagVIP nodeTagvip (by decide)).1,
    (tags_stored_raw ["vip"] [] nodeTagVIP nodeTagvip (by decide)).2⟩

/-- C9: the mapper is deterministic: structurally equal Orders map to
structurally equal EverstoxOrder values.  In this embedding the mapper is
a total pure function over immutable values, mirroring the source, which
only constructs new objects and never writes to its argument; applying it
twice to the same Order therefore yields identical results and leaves the
input unchanged. -/
theorem mapper_deterministic (o o2 : Order) (h : o = o2) :
    map_order_to_everstox o = map_order_to_everstox o2 := by
  rw [h]

/-- C9 witness: mapping the concrete example order twice yields the same
EverstoxOrder. -/
theorem mapper_deterministic_witness :
    map_order_to_everstox exOrderShip = map_order_to_everstox exOrderShip :=
  mapper_deterministic exOrderShip exOrderShip rfl

/-- C10: a present-but-empty email maps to the sentinel customer email,
the same value an absent email maps to; a non-empty email is carried
through unchanged (Python or-truthiness on the optional string). -/
theorem customer_email_fallback_spec (o : Order) :
    (o.email = some "" →
      (map_order_to_everstox o).customer_email = "unknown@example.com") ∧
    (o.email = none →
      (map_order_to_everstox o).customer_email = "unknown@example.com") ∧
    (∀ s : String, o.email = some s → s ≠ "" →
      (map_order_to_everstox o).customer_email = s) := by
  refine ⟨?_, ?_, ?_⟩
  · intro h
    simp [map_order_to_everstox, pyStrOr, h]
  · intro h
    simp [map_order_to_everstox, pyStrOr, h]
  · intro s h hs
    simp [map_order_to_everstox, pyStrOr, h, hs]

/-- C10 witness: the empty-email order and the absent-email order both map
to the sentinel email, and the order with a real email keeps it. -/
theorem customer_email_fallback_spec_witness :
    (map_order_to_everstox exOrderEmptyEmail).customer_email =
      "unknown@example.com" ∧
    (map_order_to_everstox exOrderBase).customer_email = "unknown@example.com" ∧
    (map_order_to_everstox exOrderShip).customer_email =
      "customer@example.com" := by
  exact ⟨(customer_email_fallback_spec exOrderEmptyEmail).1 rfl,
    (customer_email_fallback_spec exOrderBase).2.1 rfl,
    (customer_email_fallback_spec exOrderShip).2.2 "customer@example.com" rfl
      (by decide)⟩

end ShopifyDemo
